import Mathlib

set_option maxRecDepth 8000
set_option maxHeartbeats 2000000

deriving instance DecidableEq for Except

namespace BtcRelay

/-!
Shallow embedding of the `btc_relay` Solana program
(`programs/relayer/src/{lib,state,errors}.rs`).

Machine integers are `Nat` with explicit `% 2^32` (`u32`) or overflow
checks against `2^256` (`spl_math::uint::U256`) exactly where the Rust
arithmetic wraps or is checked.  Byte buffers are `List Nat` of byte
values.  The on-chain accounts reached through Anchor PDAs (headers keyed
by hash, forks keyed by chain id, the canonical height index and the
singleton relay state) are modelled as total maps inside a `Repo` record;
every read and write below mirrors the account access of the source line
by line.
-/

def U32LIM : Nat := 4294967296
def U256MOD : Nat := 2 ^ 256

def u32of (x : Nat) : Nat := x % U32LIM

/-! ### SHA-256

`hash256` in the source is `Sha256::digest` applied twice (the `sha2`
crate).  This is a byte-level functional SHA-256 so that concrete
submissions can be evaluated on real Bitcoin headers. -/

def rotr (n x : Nat) : Nat := (x >>> n) ||| u32of (x <<< (32 - n))

def shaCh (x y z : Nat) : Nat := (x &&& y) ^^^ ((x ^^^ 4294967295) &&& z)

def shaMaj (x y z : Nat) : Nat := (x &&& y) ^^^ (x &&& z) ^^^ (y &&& z)

def bigSig0 (x : Nat) : Nat := rotr 2 x ^^^ rotr 13 x ^^^ rotr 22 x

def bigSig1 (x : Nat) : Nat := rotr 6 x ^^^ rotr 11 x ^^^ rotr 25 x

def smallSig0 (x : Nat) : Nat := rotr 7 x ^^^ rotr 18 x ^^^ (x >>> 3)

def smallSig1 (x : Nat) : Nat := rotr 17 x ^^^ rotr 19 x ^^^ (x >>> 10)

/-- The 64 SHA-256 round constants, written in decimal. -/
def shaK : List Nat :=
  [1116352408, 1899447441, 3049323471, 3921009573, 961987163,
   1508970993, 2453635748, 2870763221, 3624381080, 310598401,
   607225278, 1426881987, 1925078388, 2162078206, 2614888103,
   3248222580, 3835390401, 4022224774, 264347078, 604807628,
   770255983, 1249150122, 1555081692, 1996064986, 2554220882,
   2821834349, 2952996808, 3210313671, 3336571891, 3584528711,
   113926993, 338241895, 666307205, 773529912, 1294757372,
   1396182291, 1695183700, 1986661051, 2177026350, 2456956037,
   2730485921, 2820302411, 3259730800, 3345764771, 3516065817,
   3600352804, 4094571909, 275423344, 430227734, 506948616,
   659060556, 883997877, 958139571, 1322822218, 1537002063,
   1747873779, 1955562222, 2024104815, 2227730452, 2361852424,
   2428436474, 2756734187, 3204031479, 3329325298]

/-- The eight SHA-256 initial hash values, written in decimal. -/
def shaH0 : List Nat :=
  [1779033703, 3144134277, 1013904242, 2773480762,
   1359893119, 2600822924, 528734635, 1541459225]

def bytesToWordsBE : List Nat → List Nat
  | a :: b :: c :: d :: rest => (((a * 256 + b) * 256 + c) * 256 + d) :: bytesToWordsBE rest
  | _ => []

def wordsToBytesBE : List Nat → List Nat
  | w :: rest => (w >>> 24) % 256 :: (w >>> 16) % 256 :: (w >>> 8) % 256 :: w % 256 :: wordsToBytesBE rest
  | [] => []

/-- Message-schedule extension; the accumulator holds the words produced so
far, newest first, so `w[t-2]`, `w[t-7]`, `w[t-15]`, `w[t-16]` are at
positions 1, 6, 14, 15. -/
def scheduleRev : Nat → List Nat → List Nat
  | 0, ws => ws
  | n + 1, ws =>
      scheduleRev n
        (u32of (smallSig1 (ws.getD 1 0) + ws.getD 6 0 + smallSig0 (ws.getD 14 0) + ws.getD 15 0) :: ws)

def shaRound (st : List Nat) (kw : Nat) : List Nat :=
  match st with
  | [a, b, c, d, e, f, g, h] =>
      let t1 := u32of (h + bigSig1 e + shaCh e f g + kw)
      let t2 := u32of (bigSig0 a + shaMaj a b c)
      [u32of (t1 + t2), a, b, c, u32of (d + t1), e, f, g]
  | other => other

def shaRounds (st : List Nat) : List Nat → List Nat
  | [] => st
  | kw :: rest => shaRounds (shaRound st kw) rest

def compress (st block : List Nat) : List Nat :=
  let ws := (scheduleRev 48 (bytesToWordsBE block).reverse).reverse
  let kws := List.zipWith (fun k w => u32of (k + w)) shaK ws
  List.zipWith (fun x y => u32of (x + y)) st (shaRounds st kws)

def lenBytesBE (n : Nat) : List Nat :=
  [(n >>> 56) % 256, (n >>> 48) % 256, (n >>> 40) % 256, (n >>> 32) % 256,
   (n >>> 24) % 256, (n >>> 16) % 256, (n >>> 8) % 256, n % 256]

def shaPad (msg : List Nat) : List Nat :=
  msg ++ 128 :: List.replicate ((56 + 64 - (msg.length + 1) % 64) % 64) 0 ++ lenBytesBE (8 * msg.length)

def shaBlocks (st : List Nat) : Nat → List Nat → List Nat
  | 0, _ => st
  | _ + 1, [] => st
  | n + 1, bytes => shaBlocks (compress st (bytes.take 64)) n (bytes.drop 64)

def sha256 (msg : List Nat) : List Nat :=
  let padded := shaPad msg
  wordsToBytesBE (shaBlocks shaH0 (padded.length / 64) padded)

/-- Source `hash256` from lib.rs: double SHA-256 of the raw bytes. -/
def hash256 (b : List Nat) : List Nat := sha256 (sha256 b)

/-! ### Constants from state.rs -/

def CHAIN_ID : Nat := 10
def DIFFICULTY_ADJUSTMENT_INTERVAL : Nat := 2016
def DIFF1_TARGET : Nat := 0xffff0000000000000000000000000000000000000000000000000000
def RETARGET_PERIOD : Nat := 1209600
def CONFIRMATIONS : Nat := 6
def MAIN_CHAIN_ID : Nat := 1

/-! ### Errors from errors.rs, plus the abort a Rust panic produces -/

inductive RelayError
  | InvalidHeaderSize
  | InvalidGenesisHeight
  | InvalidHeaderBatch
  | DuplicateBlock
  | PreviousBlockNotFound
  | LowDifficulty
  | IncorrectDifficultyTarget
  | InvalidDifficultyPeriod
  | NotChainExtension
  | BlockNotFound
  | InsufficientConfirmations
  | IncorrectMerkleProof
  | InvalidTxId
  | InvalidBlockHash
  | DivisionByZero
  | ArithmeticError
  | InvalidCounter
  | InvalidChainId
  | ForkNotFound
deriving DecidableEq

/-- A transaction either fails with a `RelayError` (Anchor `require!`/`Err`)
or aborts because a Rust `.unwrap()` panicked (`unwrapFailure`). -/
inductive TxError
  | relay : RelayError → TxError
  | unwrapFailure : TxError
deriving DecidableEq

/-! ### Checked U256 arithmetic (spl_math::uint::U256) -/

def checked_sub (a b : Nat) : Option Nat := if b ≤ a then some (a - b) else none

def checked_div (a b : Nat) : Option Nat := if b = 0 then none else some (a / b)

def checked_mul (a b : Nat) : Option Nat := if a * b < U256MOD then some (a * b) else none

def checked_pow (a b : Nat) : Option Nat := if a ^ b < U256MOD then some (a ^ b) else none

/-! ### Byte codec from lib.rs -/

/-- Source `reverse_uint24` from lib.rs: `(b << 16) | (b & 0x00FF00) | (b >> 16)`
on `u32`, the left shift wrapping modulo `2^32`.  Note the absence of a
`0xFF0000` mask on the shifted term. -/
def reverse_uint24 (b : Nat) : Nat := u32of (b <<< 16) ||| (b &&& 0xFF00) ||| (b >>> 16)

/-- Source `extract_target_at` from lib.rs: little-endian `u32` from bytes 72–74
(high byte zero), `reverse_uint24` applied to it, exponent byte 75 with
`saturating_sub 3` (`Nat` subtraction), then
`mantissa.checked_mul(256.checked_pow(exponent).unwrap_or(0)).unwrap_or(0)`. -/
def extract_target_at (header : List Nat) (i : Nat) : Nat :=
  let m := header.getD (72 + i) 0 + header.getD (73 + i) 0 * 256 + header.getD (74 + i) 0 * 65536
  let e := header.getD (75 + i) 0
  let mantissa := reverse_uint24 m
  let exponent := e - 3
  (checked_mul mantissa ((checked_pow 256 exponent).getD 0)).getD 0

/-- Source `extract_timestamp` from lib.rs: little-endian `u32` at offset 68. -/
def extract_timestamp (data : List Nat) : Nat :=
  data.getD 68 0 + data.getD 69 0 * 256 + data.getD 70 0 * 65536 + data.getD 71 0 * 16777216

/-- The `U256::from_little_endian` read of a 32-byte buffer. -/
def fromLittleEndian : List Nat → Nat
  | [] => 0
  | b :: rest => b + 256 * fromLittleEndian rest

/-! ### Difficulty retarget engine from lib.rs -/

/-- Source `calculate_difficulty`: `DIFF1_TARGET.checked_div(target).unwrap_or_default()`. -/
def calculate_difficulty (target : Nat) : Nat := (checked_div DIFF1_TARGET target).getD 0

/-- Source `retarget_algorithm` from lib.rs, with every checked step explicit. -/
def retarget_algorithm (previous_target first_timestamp second_timestamp : Nat) :
    Except RelayError Nat :=
  match checked_sub second_timestamp first_timestamp with
  | none => .error .ArithmeticError
  | some et0 =>
    let et1 := if et0 < RETARGET_PERIOD / 4 then RETARGET_PERIOD / 4 else et0
    let et2 := if et1 > RETARGET_PERIOD * 4 then RETARGET_PERIOD * 4 else et1
    match checked_div previous_target 65536 with
    | none => .error .ArithmeticError
    | some d =>
      match checked_mul d et2 with
      | none => .error .ArithmeticError
      | some adjusted =>
        match checked_div adjusted RETARGET_PERIOD with
        | none => .error .ArithmeticError
        | some q =>
          match checked_mul q 65536 with
          | none => .error .ArithmeticError
          | some result => .ok result

def is_period_start (height : Nat) : Bool := height % DIFFICULTY_ADJUSTMENT_INTERVAL == 0

def is_period_end (height : Nat) : Bool := height % DIFFICULTY_ADJUSTMENT_INTERVAL == 2015

/-- Source `is_correct_difficulty_target` from lib.rs.  The inner
`retarget_algorithm(..).unwrap()` panics on `Err`, modelled as
`TxError.unwrapFailure`. -/
def is_correct_difficulty_target
    (prev_start_target prev_start_time prev_end_target prev_end_time next_target : Nat) :
    Except TxError Bool :=
  if calculate_difficulty prev_start_target = calculate_difficulty prev_end_target then
    .error (.relay .InvalidDifficultyPeriod)
  else
    match retarget_algorithm prev_start_target prev_start_time prev_end_time with
    | .error _ => .error .unwrapFailure
    | .ok expected_target => .ok (next_target &&& expected_target == next_target)

/-! ### Account data from state.rs -/

structure Header where
  height : Nat
  chain_id : Nat
deriving DecidableEq

structure Fork where
  height : Nat
  ancestor : List Nat
  descendants : List (List Nat)
deriving DecidableEq

/-- Account `RelayState`.  The source stores the epoch targets as decimal `String`s
(`U256::to_string` on write, `U256::from_dec_str(..).unwrap()` on read, an
exact round trip with the empty string reading back as 0), so they are
modelled directly as the numbers they denote. -/
structure RelayState where
  best_block : List Nat
  best_height : Nat
  epoch_start_target : Nat
  epoch_end_target : Nat
  epoch_start_time : Nat
  epoch_end_time : Nat
  chain_counter : Nat
deriving DecidableEq

structure BlockHash where
  block_hash : List Nat
deriving DecidableEq

structure ChainReorg where
  reorg_from : List Nat
  reorg_to : List Nat
  chain_id : Nat
deriving DecidableEq

/-- The persistent accounts of the program: headers keyed by block hash,
forks keyed by chain id, the canonical height index, the relay-state
singleton, and the list of emitted `ChainReorg` events. -/
structure Repo where
  relay : RelayState
  headers : List Nat → Header
  forks : Nat → Fork
  chainIdx : Nat → BlockHash
  events : List ChainReorg

def updMap {α β : Type} [DecidableEq α] (m : α → β) (k : α) (v : β) : α → β :=
  fun x => if x = k then v else m x

/-- The `u32` wrapping of `block_height - 1` (release-mode Rust subtraction). -/
def wsub1 (h : Nat) : Nat := if h = 0 then U32LIM - 1 else h - 1

/-- Lines 142–160 of lib.rs: decide between creating a new fork
(`_initialize_fork` + `_store_block_header` under the fresh counter),
extending the main chain, reorging (in the source everything of
`reorg_chain` except `relay.chain_counter += 1` is commented out), or
quietly extending a non-main fork.  The writable `fork` account is the one
at seed `next_counter`, the `header` account the one at seed `block_hash`,
the `chain` account the one at seed `block_height`. -/
def forkDispatch (r2 : Repo) (hash_curr_block prev_block_hash : List Nat)
    (prev_block_hash_chain_id block_height next_counter : Nat) : Except TxError Repo :=
  let is_new_fork :=
    (r2.forks prev_block_hash_chain_id).height ≠ (r2.headers prev_block_hash).height
  if is_new_fork then
    let r3 := { r2 with relay := { r2.relay with chain_counter := next_counter } }
    let newFork : Fork :=
      { height := block_height, ancestor := r3.relay.best_block,
        descendants := [hash_curr_block] }
    let r4 := { r3 with forks := updMap r3.forks next_counter newFork }
    let newHeader : Header := { height := block_height, chain_id := next_counter }
    .ok { r4 with headers := updMap r4.headers hash_curr_block newHeader,
                  chainIdx := updMap r4.chainIdx block_height ⟨hash_curr_block⟩ }
  else
    let newHeader : Header :=
      { height := block_height, chain_id := prev_block_hash_chain_id }
    let r3 := { r2 with headers := updMap r2.headers hash_curr_block newHeader,
                        chainIdx := updMap r2.chainIdx block_height ⟨hash_curr_block⟩ }
    if prev_block_hash_chain_id = MAIN_CHAIN_ID then
      let r4 := { r3 with relay := { r3.relay with
        best_block := hash_curr_block, best_height := block_height } }
      let f0 := r4.forks next_counter
      let extFork : Fork :=
        { f0 with height := block_height, descendants := f0.descendants ++ [hash_curr_block] }
      .ok { r4 with forks := updMap r4.forks next_counter extFork }
    else if (r3.relay.best_height + CONFIRMATIONS) % U32LIM ≤ block_height then
      .ok { r3 with relay := { r3.relay with
        chain_counter := (r3.relay.chain_counter + 1) % U32LIM } }
    else
      let f0 := r3.forks next_counter
      let extFork : Fork :=
        { f0 with height := block_height, descendants := f0.descendants ++ [hash_curr_block] }
      .ok { r3 with forks := updMap r3.forks next_counter extFork }

/-- Source `submit_block_header` from lib.rs, line by line.  The Anchor account
context resolves `prev_header` at seed `prev_block_hash`, `prev_fork` at
seed `prev_block_hash_chain_id`, and the writable `fork`, `chain` and
`header` accounts at seeds `next_counter`, `block_height` and `block_hash`
respectively.  The header account is written under the recomputed
`hash_curr_block`, which at that point equals `block_hash`. -/
def submitBlockHeader (r : Repo) (header : List Nat) (block_hash prev_block_hash : List Nat)
    (prev_block_hash_chain_id block_height next_counter : Nat) : Except TxError Repo :=
  if header.length ≠ 80 then .error (.relay .InvalidHeaderSize)
  else if (r.relay.chain_counter + 1) % U32LIM ≠ next_counter then .error (.relay .InvalidCounter)
  else
    let hash_curr_block := hash256 header
    if hash_curr_block ≠ block_hash then .error (.relay .InvalidBlockHash)
    else if (r.headers block_hash).chain_id ≠ 0 then .error (.relay .DuplicateBlock)
    else
      let prv_height := (r.headers prev_block_hash).height
      if ¬(0 < prv_height ∧ prv_height = wsub1 block_height) then
        .error (.relay .PreviousBlockNotFound)
      else if (r.headers prev_block_hash).chain_id ≠ prev_block_hash_chain_id then
        .error (.relay .InvalidChainId)
      else
        let target := extract_target_at header 0
        if ¬(fromLittleEndian hash_curr_block ≤ target) then .error (.relay .LowDifficulty)
        else
          if is_period_start block_height then
            match is_correct_difficulty_target r.relay.epoch_start_target r.relay.epoch_start_time
                r.relay.epoch_end_target r.relay.epoch_end_time target with
            | .error .unwrapFailure => .error .unwrapFailure
            | .error (.relay _) => .error (.relay .IncorrectDifficultyTarget)
            | .ok b =>
              if b then
                forkDispatch { r with relay := { r.relay with
                    epoch_start_target := target, epoch_start_time := extract_timestamp header,
                    epoch_end_target := 0, epoch_end_time := 0 } }
                  hash_curr_block prev_block_hash prev_block_hash_chain_id block_height
                  next_counter
              else .error (.relay .IncorrectDifficultyTarget)
          else if is_period_end block_height then
            forkDispatch { r with relay := { r.relay with
                epoch_end_target := target, epoch_end_time := extract_timestamp header } }
              hash_curr_block prev_block_hash prev_block_hash_chain_id block_height next_counter
          else
            forkDispatch r hash_curr_block prev_block_hash prev_block_hash_chain_id block_height
              next_counter

/-- The 80-byte Bitcoin genesis block header. -/
def genesisHeader : List Nat :=
  [0x01, 0x00, 0x00, 0x00] ++ List.replicate 32 0 ++
  [0x3b, 0xa3, 0xed, 0xfd, 0x7a, 0x7b, 0x12, 0xb2, 0x7a, 0xc7, 0x2c, 0x3e, 0x67, 0x76, 0x8f, 0x61,
   0x7f, 0xc8, 0x1b, 0xc3, 0x88, 0x8a, 0x51, 0x32, 0x3a, 0x9f, 0xb8, 0xaa, 0x4b, 0x1e, 0x5e, 0x4a] ++
  [0x29, 0xab, 0x5f, 0x49] ++ [0xff, 0xff, 0x00, 0x1d] ++ [0x1d, 0xac, 0x2b, 0x7c]

def zeros32 : List Nat := List.replicate 32 0

/-- A parent hash distinct from any real block hash, used by the concrete
scenarios below. -/
def pbh1 : List Nat := List.replicate 32 9

/-- A stand-in previous best block, distinct from `pbh1` and from genesis. -/
def bbOld : List Nat := List.replicate 32 7

/-- Concrete scenario for the reorg path: the submitted header extends the
non-main fork 2 at its tip (parent height 9 = fork height 9), and the new
height 10 reaches `best_height + CONFIRMATIONS = 4 + 6`. -/
def reorgRepo : Repo :=
  { relay := { best_block := bbOld, best_height := 4, epoch_start_target := 3,
               epoch_end_target := 5, epoch_start_time := 0, epoch_end_time := 0,
               chain_counter := 0 },
    headers := updMap (fun _ => ⟨0, 0⟩) pbh1 ⟨9, 2⟩,
    forks := updMap (fun _ => ⟨0, zeros32, []⟩) 2 ⟨9, zeros32, []⟩,
    chainIdx := fun _ => ⟨zeros32⟩,
    events := [] }

/-- Concrete scenario for the new-fork path: the parent sits at height 5 on
chain 2, but fork 2's tip is already at height 7, so the submission at
height 6 branches. -/
def forkRepo : Repo :=
  { relay := { best_block := bbOld, best_height := 20, epoch_start_target := 3,
               epoch_end_target := 5, epoch_start_time := 0, epoch_end_time := 0,
               chain_counter := 0 },
    headers := updMap (fun _ => ⟨0, 0⟩) pbh1 ⟨5, 2⟩,
    forks := updMap (fun _ => ⟨0, zeros32, []⟩) 2 ⟨7, zeros32, []⟩,
    chainIdx := fun _ => ⟨zeros32⟩,
    events := [] }

/-- Concrete scenario at a period-start height (2016) whose previous period
recorded identical start and end epoch targets. -/
def periodRepo : Repo :=
  { relay := { best_block := bbOld, best_height := 2015, epoch_start_target := 1000,
               epoch_end_target := 1000, epoch_start_time := 0, epoch_end_time := 600,
               chain_counter := 0 },
    headers := updMap (fun _ => ⟨0, 0⟩) pbh1 ⟨2015, 1⟩,
    forks := updMap (fun _ => ⟨0, zeros32, []⟩) 1 ⟨2015, zeros32, []⟩,
    chainIdx := fun _ => ⟨zeros32⟩,
    events := [] }

/-- Concrete scenario for a quiet non-main fork extension at a period-end
height (2015 < best 2013 + 6). -/
def peRepo : Repo :=
  { relay := { best_block := bbOld, best_height := 2013, epoch_start_target := 3,
               epoch_end_target := 0, epoch_start_time := 0, epoch_end_time := 0,
               chain_counter := 0 },
    headers := updMap (fun _ => ⟨0, 0⟩) pbh1 ⟨2014, 2⟩,
    forks := updMap (fun _ => ⟨0, zeros32, []⟩) 2 ⟨2014, zeros32, []⟩,
    chainIdx := fun _ => ⟨zeros32⟩,
    events := [] }

/-- Concrete scenario in which the genesis header's hash already has a
stored header record with the non-zero chain id 5. -/
def dupRepo : Repo :=
  { relay := { best_block := bbOld, best_height := 20, epoch_start_target := 3,
               epoch_end_target := 5, epoch_start_time := 0, epoch_end_time := 0,
               chain_counter := 0 },
    headers := updMap (fun _ => ⟨0, 0⟩) (hash256 genesisHeader) ⟨3, 5⟩,
    forks := updMap (fun _ => ⟨0, zeros32, []⟩) 1 ⟨20, zeros32, []⟩,
    chainIdx := fun _ => ⟨zeros32⟩,
    events := [] }

/-- Concrete scenario for a quiet non-main fork extension away from any
period boundary (height 300 < best 297 + 6). -/
def extRepo : Repo :=
  { relay := { best_block := bbOld, best_height := 297, epoch_start_target := 3,
               epoch_end_target := 5, epoch_start_time := 0, epoch_end_time := 0,
               chain_counter := 0 },
    headers := updMap (fun _ => ⟨0, 0⟩) pbh1 ⟨299, 2⟩,
    forks := updMap (fun _ => ⟨0, zeros32, []⟩) 2 ⟨299, zeros32, []⟩,
    chainIdx := fun _ => ⟨zeros32⟩,
    events := [] }

/-! ### Entry points that are stubs in the source, modelled from the spec -/

/-- Modelled from the spec: `extractPrevHash` (§4.1), the little-endian 32 bytes at offset 4. -/
def extractPrevHash (b : List Nat) : List Nat := (b.drop 4).take 32

/-- The header's merkle root field: 32 bytes at offset 36. -/
def extractMerkleRoot (b : List Nat) : List Nat := (b.drop 36).take 32

/-- Modelled from the spec: the standard binary merkle inclusion proof of
§4.5 — fold the sibling-hash list over the transaction id with
double-SHA-256 pair hashing, the index's parity choosing the side at each
level. -/
def computeMerkle (txid : List Nat) (index : Nat) : List (List Nat) → List Nat
  | [] => txid
  | sib :: rest =>
      computeMerkle (if index % 2 = 1 then hash256 (sib ++ txid) else hash256 (txid ++ sib))
        (index / 2) rest

/-- Modelled from the spec: the body of `verify_tx` in lib.rs is a stub
(`Ok(false)` under an `Implement transaction verification logic` comment),
so the verification logic itself is missing from the source.  Following
§4.5: look up the canonical header at `height` and require it to be the
submitted header, recompute the merkle root from `txid`, `index` and the
sibling list, fail with `IncorrectMerkleProof` on mismatch, and fail with
`InsufficientConfirmations` unless `bestHeight − height + 1 ≥
confirmations`.  The `insecure` flag is never honored (§4.5: it "must
never be honored in a production configuration"). -/
def verifyTx (r : Repo) (height index : Nat) (txid header : List Nat)
    (proof : List (List Nat)) (confirmations : Nat) (_insecure : Bool) : Except TxError Bool :=
  if header.length ≠ 80 then .error (.relay .InvalidHeaderSize)
  else if (r.chainIdx height).block_hash ≠ hash256 header then .error (.relay .BlockNotFound)
  else if computeMerkle txid index proof ≠ extractMerkleRoot header then
    .error (.relay .IncorrectMerkleProof)
  else if confirmations ≤ r.relay.best_height - height + 1 then .ok true
  else .error (.relay .InsufficientConfirmations)

/-- Modelled from the spec: one step of `submit_block_header_batch` (§4.5),
whose body in lib.rs is a stub (`Ok(())` under an `Implement batch
submission logic` comment).  Each header is applied "via the single-header
pipeline", its arguments derived from the header bytes and the current
repository: the claimed hash is the recomputed hash, the parent is the
header's embedded previous-hash field, the parent chain id and height come
from the parent's record, and the counter is the expected next counter. -/
def submitBatchStep (r : Repo) (header : List Nat) : Except TxError Repo :=
  let pbh := extractPrevHash header
  submitBlockHeader r header (hash256 header) pbh ((r.headers pbh).chain_id)
    ((r.headers pbh).height + 1) ((r.relay.chain_counter + 1) % U32LIM)

/-- Modelled from the spec: `submit_block_header_batch` applies each header
via the single-header pipeline in submission order; the fold is atomic
because a failing step returns an error and no repository value, so the
caller keeps the pre-batch repository. -/
def submitBlockHeaderBatch (r : Repo) : List (List Nat) → Except TxError Repo
  | [] => .ok r
  | h :: rest =>
      match submitBatchStep r h with
      | .error e => .error e
      | .ok r2 => submitBlockHeaderBatch r2 rest

/-- Concrete scenario for `verifyTx`: height 100 holds the genesis header,
the best height is 105, and the genesis merkle root is its only txid. -/
def vRepo : Repo :=
  { relay := { best_block := hash256 genesisHeader, best_height := 105, epoch_start_target := 3,
               epoch_end_target := 5, epoch_start_time := 0, epoch_end_time := 0,
               chain_counter := 0 },
    headers := fun _ => ⟨0, 0⟩,
    forks := fun _ => ⟨0, zeros32, []⟩,
    chainIdx := updMap (fun _ => ⟨zeros32⟩) 100 ⟨hash256 genesisHeader⟩,
    events := [] }

def genesisMerkleRoot : List Nat := extractMerkleRoot genesisHeader

/-- An empty repository for the batch scenario: no parent exists, so the
first header of any batch fails the linkage check. -/
def emptyRepo : Repo :=
  { relay := { best_block := zeros32, best_height := 0, epoch_start_target := 0,
               epoch_end_target := 0, epoch_start_time := 0, epoch_end_time := 0,
               chain_counter := 0 },
    headers := fun _ => ⟨0, 0⟩,
    forks := fun _ => ⟨0, zeros32, []⟩,
    chainIdx := fun _ => ⟨zeros32⟩,
    events := [] }

/-! ### Theorems -/

/-- If the first checked multiplication of `retarget_algorithm` stays below
`2^256`, so does the final one: dividing by the two-week period and
multiplying back by `65536` can only shrink the value. -/
theorem retarget_tail_lt {a : Nat} (h : a < U256MOD) :
    a / RETARGET_PERIOD * 65536 < U256MOD := by
  have h1 : a / RETARGET_PERIOD ≤ a / 65536 := by
    unfold RETARGET_PERIOD
    exact Nat.div_le_div_left (by norm_num) (by norm_num)
  calc a / RETARGET_PERIOD * 65536 ≤ a / 65536 * 65536 := Nat.mul_le_mul_right _ h1
    _ ≤ a := Nat.div_mul_le_self a 65536
    _ < U256MOD := h

/-- Case analysis of `retarget_algorithm`: underflow error, the success
formula on the clamped elapsed time, and the overflow error. -/
theorem retarget_algorithm_cases (prev t0 t1 : Nat) :
    (t1 < t0 → retarget_algorithm prev t0 t1 = .error .ArithmeticError) ∧
    (t0 ≤ t1 →
      (prev / 65536 * min (max (t1 - t0) (RETARGET_PERIOD / 4)) (RETARGET_PERIOD * 4) < U256MOD →
        retarget_algorithm prev t0 t1 =
          .ok (prev / 65536 * min (max (t1 - t0) (RETARGET_PERIOD / 4)) (RETARGET_PERIOD * 4) /
              RETARGET_PERIOD * 65536)) ∧
      (U256MOD ≤
          prev / 65536 * min (max (t1 - t0) (RETARGET_PERIOD / 4)) (RETARGET_PERIOD * 4) →
        retarget_algorithm prev t0 t1 = .error .ArithmeticError)) := by
  constructor
  · intro hlt
    unfold retarget_algorithm
    rw [show checked_sub t1 t0 = none from by simp [checked_sub]; omega]
  · intro hle
    have hsub : checked_sub t1 t0 = some (t1 - t0) := by simp [checked_sub, hle]
    have hdiv : checked_div prev 65536 = some (prev / 65536) := by simp [checked_div]
    have hclamp :
        (if (if t1 - t0 < RETARGET_PERIOD / 4 then RETARGET_PERIOD / 4 else t1 - t0) >
              RETARGET_PERIOD * 4 then RETARGET_PERIOD * 4
         else if t1 - t0 < RETARGET_PERIOD / 4 then RETARGET_PERIOD / 4 else t1 - t0) =
          min (max (t1 - t0) (RETARGET_PERIOD / 4)) (RETARGET_PERIOD * 4) := by
      unfold RETARGET_PERIOD
      split <;> split at * <;> omega
    constructor
    · intro hfit
      unfold retarget_algorithm
      rw [hsub]
      dsimp only
      rw [hclamp, hdiv]
      dsimp only
      rw [show checked_mul (prev / 65536)
            (min (max (t1 - t0) (RETARGET_PERIOD / 4)) (RETARGET_PERIOD * 4)) =
          some (prev / 65536 * min (max (t1 - t0) (RETARGET_PERIOD / 4)) (RETARGET_PERIOD * 4))
          from by simp [checked_mul, hfit]]
      dsimp only
      rw [show checked_div
            (prev / 65536 * min (max (t1 - t0) (RETARGET_PERIOD / 4)) (RETARGET_PERIOD * 4))
            RETARGET_PERIOD =
          some (prev / 65536 * min (max (t1 - t0) (RETARGET_PERIOD / 4)) (RETARGET_PERIOD * 4) /
            RETARGET_PERIOD) from by simp [checked_div, RETARGET_PERIOD]]
      dsimp only
      rw [show checked_mul
            (prev / 65536 * min (max (t1 - t0) (RETARGET_PERIOD / 4)) (RETARGET_PERIOD * 4) /
              RETARGET_PERIOD) 65536 =
          some (prev / 65536 * min (max (t1 - t0) (RETARGET_PERIOD / 4)) (RETARGET_PERIOD * 4) /
            RETARGET_PERIOD * 65536) from by simp [checked_mul, retarget_tail_lt hfit]]
    · intro hover
      unfold retarget_algorithm
      rw [hsub]
      dsimp only
      rw [hclamp, hdiv]
      dsimp only
      rw [show checked_mul (prev / 65536)
            (min (max (t1 - t0) (RETARGET_PERIOD / 4)) (RETARGET_PERIOD * 4)) = none
          from by simp [checked_mul]; omega]

/-- C3: `retarget_algorithm` fails with `ArithmeticError` when `t1 − t0`
underflows; otherwise it clamps the elapsed time into
`[RETARGET_PERIOD/4, RETARGET_PERIOD*4]` and returns
`((prevTarget / 65536) * elapsed) / RETARGET_PERIOD * 65536`, every step
checked, with the only possible overflow — the first multiplication
reaching `2^256` — failing with `ArithmeticError` (the divisors 65536 and
`RETARGET_PERIOD` are non-zero constants, so the checked divisions never
fail). -/
theorem retarget_algorithm_spec (prev t0 t1 : Nat) :
    (t1 < t0 → retarget_algorithm prev t0 t1 = .error .ArithmeticError) ∧
    (t0 ≤ t1 →
      (prev / 65536 * min (max (t1 - t0) (RETARGET_PERIOD / 4)) (RETARGET_PERIOD * 4) < U256MOD →
        retarget_algorithm prev t0 t1 =
          .ok (prev / 65536 * min (max (t1 - t0) (RETARGET_PERIOD / 4)) (RETARGET_PERIOD * 4) /
              RETARGET_PERIOD * 65536)) ∧
      (U256MOD ≤
          prev / 65536 * min (max (t1 - t0) (RETARGET_PERIOD / 4)) (RETARGET_PERIOD * 4) →
        retarget_algorithm prev t0 t1 = .error .ArithmeticError)) :=
  retarget_algorithm_cases prev t0 t1

/-- Witness for `retarget_algorithm_spec`, exercising all three branches
at concrete inputs. -/
theorem retarget_algorithm_spec_witness :
    retarget_algorithm 7 5 3 = .error .ArithmeticError ∧
    retarget_algorithm (2 ^ 240) 0 1209600 = .ok (2 ^ 240) ∧
    retarget_algorithm (2 ^ 255) 0 1209600 = .error .ArithmeticError := by
  refine ⟨(retarget_algorithm_spec 7 5 3).1 (by omega), ?_, ?_⟩
  · have h := ((retarget_algorithm_spec (2 ^ 240) 0 1209600).2 (by omega)).1 (by decide)
    rw [h]
    congr 1
  · exact ((retarget_algorithm_spec (2 ^ 255) 0 1209600).2 (by omega)).2 (by decide)

/-- The function `retarget_algorithm` depends on its timestamps only through the clamped
elapsed time. -/
theorem retarget_clamp_only (prev t0 t1 u0 u1 : Nat) (h0 : t0 ≤ t1) (h1 : u0 ≤ u1)
    (h : min (max (t1 - t0) (RETARGET_PERIOD / 4)) (RETARGET_PERIOD * 4) =
         min (max (u1 - u0) (RETARGET_PERIOD / 4)) (RETARGET_PERIOD * 4)) :
    retarget_algorithm prev t0 t1 = retarget_algorithm prev u0 u1 := by
  by_cases hov :
      prev / 65536 * min (max (t1 - t0) (RETARGET_PERIOD / 4)) (RETARGET_PERIOD * 4) < U256MOD
  · rw [((retarget_algorithm_cases prev t0 t1).2 h0).1 hov,
      ((retarget_algorithm_cases prev u0 u1).2 h1).1 (by rw [← h]; exact hov), h]
  · rw [((retarget_algorithm_cases prev t0 t1).2 h0).2 (by omega),
      ((retarget_algorithm_cases prev u0 u1).2 h1).2 (by rw [← h]; omega)]

/-- C9 (counterexample): doubling an elapsed time lying inside the
unclamped range need not strictly increase the result — at
`prevTarget = 65536`, elapsed 302400 s and its double 604800 s both yield
target 0, because `(prevTarget / 65536) * elapsed / RETARGET_PERIOD`
floors to 0. -/
theorem retarget_monotonic_counterexample :
    RETARGET_PERIOD / 4 ≤ 302400 ∧ 2 * 302400 ≤ RETARGET_PERIOD * 4 ∧
    retarget_algorithm 65536 0 302400 = .ok 0 ∧
    retarget_algorithm 65536 0 604800 = .ok 0 := by decide

/-- C9 (amended): within the unclamped range doubling the elapsed time
never decreases the resulting target (strict increase can fail for small
targets); elapsed values outside `[RETARGET_PERIOD/4, RETARGET_PERIOD*4]`
are clamped to the nearer boundary, in particular elapsed 0 matches the
lower clamp and elapsed `100 × RETARGET_PERIOD` the upper clamp. -/
theorem retarget_monotone_and_clamp :
    (∀ prev e v v2, RETARGET_PERIOD / 4 ≤ e → 2 * e ≤ RETARGET_PERIOD * 4 →
      retarget_algorithm prev 0 e = .ok v → retarget_algorithm prev 0 (2 * e) = .ok v2 →
      v ≤ v2) ∧
    (∀ prev t0 t1, t0 ≤ t1 → t1 - t0 ≤ RETARGET_PERIOD / 4 →
      retarget_algorithm prev t0 t1 = retarget_algorithm prev 0 (RETARGET_PERIOD / 4)) ∧
    (∀ prev t0 t1, RETARGET_PERIOD * 4 ≤ t1 - t0 →
      retarget_algorithm prev t0 t1 = retarget_algorithm prev 0 (RETARGET_PERIOD * 4)) ∧
    (∀ prev, retarget_algorithm prev 0 0 = retarget_algorithm prev 0 (RETARGET_PERIOD / 4) ∧
      retarget_algorithm prev 0 (100 * RETARGET_PERIOD) =
        retarget_algorithm prev 0 (RETARGET_PERIOD * 4)) := by
  have hlow : ∀ prev t0 t1, t0 ≤ t1 → t1 - t0 ≤ RETARGET_PERIOD / 4 →
      retarget_algorithm prev t0 t1 = retarget_algorithm prev 0 (RETARGET_PERIOD / 4) := by
    intro prev t0 t1 ht hsmall
    exact retarget_clamp_only prev t0 t1 0 (RETARGET_PERIOD / 4) ht (Nat.zero_le _)
      (by unfold RETARGET_PERIOD at *; omega)
  have hhigh : ∀ prev t0 t1, RETARGET_PERIOD * 4 ≤ t1 - t0 →
      retarget_algorithm prev t0 t1 = retarget_algorithm prev 0 (RETARGET_PERIOD * 4) := by
    intro prev t0 t1 hbig
    exact retarget_clamp_only prev t0 t1 0 (RETARGET_PERIOD * 4)
      (by unfold RETARGET_PERIOD at *; omega) (Nat.zero_le _)
      (by unfold RETARGET_PERIOD at *; omega)
  refine ⟨?_, hlow, hhigh, fun prev =>
    ⟨hlow prev 0 0 (le_refl 0) (by unfold RETARGET_PERIOD; omega),
     hhigh prev 0 (100 * RETARGET_PERIOD) (by unfold RETARGET_PERIOD; omega)⟩⟩
  intro prev e v v2 he1 he2 hv hv2
  have hcl1 : min (max (e - 0) (RETARGET_PERIOD / 4)) (RETARGET_PERIOD * 4) = e := by
    unfold RETARGET_PERIOD at *; omega
  have hcl2 : min (max (2 * e - 0) (RETARGET_PERIOD / 4)) (RETARGET_PERIOD * 4) = 2 * e := by
    unfold RETARGET_PERIOD at *; omega
  by_cases hov : prev / 65536 * e < U256MOD
  · by_cases hov2 : prev / 65536 * (2 * e) < U256MOD
    · have f1 := ((retarget_algorithm_cases prev 0 e).2 (Nat.zero_le e)).1 (by rw [hcl1]; exact hov)
      have f2 := ((retarget_algorithm_cases prev 0 (2 * e)).2 (Nat.zero_le _)).1
        (by rw [hcl2]; exact hov2)
      rw [hcl1] at f1
      rw [hcl2] at f2
      have hveq := Except.ok.inj (f1.symm.trans hv)
      have hv2eq := Except.ok.inj (f2.symm.trans hv2)
      rw [← hveq, ← hv2eq]
      have hmul : prev / 65536 * e ≤ prev / 65536 * (2 * e) :=
        Nat.mul_le_mul_left _ (by omega)
      exact Nat.mul_le_mul_right _ (Nat.div_le_div_right hmul)
    · have f2 := ((retarget_algorithm_cases prev 0 (2 * e)).2 (Nat.zero_le _)).2
        (by rw [hcl2]; omega)
      rw [f2] at hv2
      exact absurd hv2 (by simp)
  · have f1 := ((retarget_algorithm_cases prev 0 e).2 (Nat.zero_le e)).2 (by rw [hcl1]; omega)
    rw [f1] at hv
    exact absurd hv (by simp)

/-- Witness for `retarget_monotone_and_clamp`: at `prevTarget = 2^200`,
elapsed 302400 s yields `2^198` and the doubled elapsed 604800 s yields
`2^199`, and the monotonicity part orders them. -/
theorem retarget_monotone_and_clamp_witness :
    retarget_algorithm (2 ^ 200) 0 302400 = .ok (2 ^ 198) ∧
    retarget_algorithm (2 ^ 200) 0 604800 = .ok (2 ^ 199) ∧
    2 ^ 198 ≤ (2 ^ 199 : Nat) := by
  refine ⟨by decide, by decide, ?_⟩
  exact retarget_monotone_and_clamp.1 (2 ^ 200) 302400 (2 ^ 198) (2 ^ 199)
    (by decide) (by decide) (by decide) (by decide)

/-- C2: on the Bitcoin genesis header's difficulty bits (`ff ff 00 1d` at
offsets 72–75) the code's compact-to-target conversion yields
`0xFFFFFF00 × 256^26`, not the historically correct `0xFFFF × 256^26`:
`reverse_uint24` is applied to the already little-endian mantissa
`0x00FFFF` and, lacking a `0xFF0000` mask on the shifted term, leaks the
middle mantissa byte into bits 24–31. -/
theorem extract_target_genesis_bug :
    extract_target_at genesisHeader 0 = 4294967040 * 256 ^ 26 ∧
    extract_target_at genesisHeader 0 ≠ 65535 * 256 ^ 26 ∧
    reverse_uint24 65535 = 4294967040 := by decide

/-- C1: a submission extending non-main fork 2 to height 10, which reaches
`best_height + CONFIRMATIONS = 4 + 6`, succeeds but leaves
`best_block`/`best_height` at their old values, merely increments
`chain_counter` (the only line of `reorg_chain` not commented out), and
emits no `ChainReorg` event. -/
theorem submit_reorg_stub_bug :
    (submitBlockHeader reorgRepo genesisHeader (hash256 genesisHeader) pbh1 2 10 1).map
      (fun r => (r.relay.best_block, r.relay.best_height, r.relay.chain_counter, r.events)) =
      .ok (bbOld, 4, 1, []) ∧
    bbOld ≠ hash256 genesisHeader := by decide

/-- C5: a submission branching off parent `pbh1` (height 5, chain 2, fork
tip already at 7) creates fork 1 with the new header as sole descendant
and stores the header under the fresh chain id 1, but the fork's
`ancestor` is `RelayState.best_block`, not the parent hash: the call site
passes `relay_state.best_block` for `_initialize_fork`'s
`hash_prev_block` parameter. -/
theorem new_fork_ancestor_bug :
    (submitBlockHeader forkRepo genesisHeader (hash256 genesisHeader) pbh1 2 6 1).map
      (fun r => (r.forks 1, r.headers (hash256 genesisHeader))) =
      .ok (⟨6, bbOld, [hash256 genesisHeader]⟩, ⟨6, 1⟩) ∧
    bbOld ≠ pbh1 := by decide

/-- C4 (counterexample): at period-start height 2016 with identical
previous-period start and end targets (both 1000), and every earlier check
passing, `submit_block_header` fails with `IncorrectDifficultyTarget`, not
with `InvalidDifficultyPeriod`: the `Err(InvalidDifficultyPeriod)` from
`is_correct_difficulty_target` is folded to `false` by
`unwrap_or_default`. -/
theorem period_start_error_kind :
    (submitBlockHeader periodRepo genesisHeader (hash256 genesisHeader) pbh1 1 2016 1).map
      (fun _ => 0) = .error (.relay .IncorrectDifficultyTarget) ∧
    (submitBlockHeader periodRepo genesisHeader (hash256 genesisHeader) pbh1 1 2016 1).map
      (fun _ => 0) ≠ .error (.relay .InvalidDifficultyPeriod) := by decide

/-- C4 (amended): for every submission at a period-start height whose
previous-period start and end epoch targets are numerically identical
(and that passes the size, counter, hash, duplicate, linkage and PoW
checks), `submit_block_header` fails with `IncorrectDifficultyTarget`;
the `InvalidDifficultyPeriod` raised inside `is_correct_difficulty_target`
is swallowed by `unwrap_or_default`. -/
theorem period_start_identical_targets (r : Repo) (header bh pbh : List Nat) (pid hgt nc : Nat)
    (hlen : header.length = 80)
    (hctr : (r.relay.chain_counter + 1) % U32LIM = nc)
    (hh : hash256 header = bh)
    (hdup : (r.headers bh).chain_id = 0)
    (hprev : 0 < (r.headers pbh).height ∧ (r.headers pbh).height = wsub1 hgt)
    (hcid : (r.headers pbh).chain_id = pid)
    (hpow : fromLittleEndian (hash256 header) ≤ extract_target_at header 0)
    (hps : hgt % DIFFICULTY_ADJUSTMENT_INTERVAL = 0)
    (heq : r.relay.epoch_start_target = r.relay.epoch_end_target) :
    submitBlockHeader r header bh pbh pid hgt nc = .error (.relay .IncorrectDifficultyTarget) := by
  unfold submitBlockHeader
  dsimp only
  rw [if_neg (show ¬header.length ≠ 80 from not_not_intro hlen),
    if_neg (show ¬(r.relay.chain_counter + 1) % U32LIM ≠ nc from not_not_intro hctr),
    if_neg (show ¬hash256 header ≠ bh from not_not_intro hh),
    if_neg (show ¬(r.headers bh).chain_id ≠ 0 from not_not_intro hdup),
    if_neg (not_not_intro hprev),
    if_neg (show ¬(r.headers pbh).chain_id ≠ pid from not_not_intro hcid),
    if_neg (not_not_intro hpow),
    if_pos (show is_period_start hgt = true from by simp [is_period_start, hps]),
    show is_correct_difficulty_target r.relay.epoch_start_target r.relay.epoch_start_time
        r.relay.epoch_end_target r.relay.epoch_end_time (extract_target_at header 0) =
      .error (.relay .InvalidDifficultyPeriod) from by
        simp [is_correct_difficulty_target, heq]]

/-- Witness for `period_start_identical_targets` at the concrete
`periodRepo` scenario. -/
theorem period_start_identical_targets_witness :
    submitBlockHeader periodRepo genesisHeader (hash256 genesisHeader) pbh1 1 2016 1 =
      .error (.relay .IncorrectDifficultyTarget) :=
  period_start_identical_targets periodRepo genesisHeader (hash256 genesisHeader) pbh1 1 2016 1
    (by decide) (by decide) rfl (by decide) (by decide) (by decide) (by decide) (by decide)
    (by decide)

/-- Facts every successful `submitBlockHeader` guarantees: the size and
hash checks passed, and the header record stored at `block_hash` carries
either the fresh chain id `next_counter` (new-fork path) or the parent's
chain id (extension paths). -/
theorem forkDispatch_stores {r2 r3 : Repo} {hc pbh : List Nat} {pid hgt nc : Nat}
    (hok : forkDispatch r2 hc pbh pid hgt nc = .ok r3) :
    (r3.headers hc).chain_id = nc ∨ (r3.headers hc).chain_id = pid := by
  unfold forkDispatch at hok
  dsimp only at hok
  split at hok
  · injection hok with h2
    subst h2
    left
    simp [updMap]
  · split at hok
    · injection hok with h2
      subst h2
      right
      simp [updMap]
    · split at hok
      · injection hok with h2
        subst h2
        right
        simp [updMap]
      · injection hok with h2
        subst h2
        right
        simp [updMap]

theorem submit_ok_facts {r r2 : Repo} {header bh pbh : List Nat} {pid hgt nc : Nat}
    (hok : submitBlockHeader r header bh pbh pid hgt nc = .ok r2) :
    header.length = 80 ∧ hash256 header = bh ∧
      ((r2.headers bh).chain_id = nc ∨ (r2.headers bh).chain_id = pid) := by
  unfold submitBlockHeader at hok
  dsimp only at hok
  repeat' split at hok
  all_goals try exact absurd hok (by simp)
  all_goals
    have hh : hash256 header = bh := not_not.mp ‹¬(hash256 header ≠ bh)›
  all_goals refine ⟨by omega, hh, ?_⟩
  all_goals
    have hstored := forkDispatch_stores hok
  all_goals rwa [hh] at hstored

/-- C8: a submission whose hash already has a stored header record with a
non-zero chain id fails with `DuplicateBlock` (first part), and in
particular resubmitting a header right after it was accepted — with any
parent data and the refreshed counter — fails with `DuplicateBlock`
(second part; the first submission stored chain id `next_counter` or the
parent chain id, both assumed non-zero). -/
theorem duplicate_block :
    (∀ (r : Repo) (header bh pbh : List Nat) (pid hgt nc : Nat),
      header.length = 80 → (r.relay.chain_counter + 1) % U32LIM = nc → hash256 header = bh →
      (r.headers bh).chain_id ≠ 0 →
      submitBlockHeader r header bh pbh pid hgt nc = .error (.relay .DuplicateBlock)) ∧
    (∀ (r r2 : Repo) (header bh pbh pbh2 : List Nat) (pid hgt nc pid2 hgt2 : Nat),
      pid ≠ 0 → nc ≠ 0 →
      submitBlockHeader r header bh pbh pid hgt nc = .ok r2 →
      submitBlockHeader r2 header bh pbh2 pid2 hgt2 ((r2.relay.chain_counter + 1) % U32LIM) =
        .error (.relay .DuplicateBlock)) := by
  have part1 : ∀ (r : Repo) (header bh pbh : List Nat) (pid hgt nc : Nat),
      header.length = 80 → (r.relay.chain_counter + 1) % U32LIM = nc → hash256 header = bh →
      (r.headers bh).chain_id ≠ 0 →
      submitBlockHeader r header bh pbh pid hgt nc = .error (.relay .DuplicateBlock) := by
    intro r header bh pbh pid hgt nc hlen hctr hh hdup
    unfold submitBlockHeader
    dsimp only
    rw [if_neg (show ¬header.length ≠ 80 from not_not_intro hlen),
      if_neg (show ¬(r.relay.chain_counter + 1) % U32LIM ≠ nc from not_not_intro hctr),
      if_neg (show ¬hash256 header ≠ bh from not_not_intro hh),
      if_pos hdup]
  refine ⟨part1, ?_⟩
  intro r r2 header bh pbh pbh2 pid hgt nc pid2 hgt2 hpid hnc hok
  obtain ⟨hlen, hh, hstored⟩ := submit_ok_facts hok
  exact part1 r2 header bh pbh2 pid2 hgt2 _ hlen rfl hh (by omega)

/-- Witness for `duplicate_block` at the concrete `dupRepo` scenario,
where the genesis header's hash is already stored under chain id 5. -/
theorem duplicate_block_witness :
    submitBlockHeader dupRepo genesisHeader (hash256 genesisHeader) pbh1 1 4 1 =
      .error (.relay .DuplicateBlock) :=
  duplicate_block.1 dupRepo genesisHeader (hash256 genesisHeader) pbh1 1 4 1
    (by decide) (by decide) rfl (by decide)

/-- The quiet-extension branch of `forkDispatch`: extending a non-main
fork whose tip is the parent, below the reorg threshold, stores the
header, updates the height index, and pushes onto the fork account at
seed `next_counter`. -/
theorem forkDispatch_quiet {r2 : Repo} {hc pbh : List Nat} {pid hgt nc : Nat}
    (hext : (r2.forks pid).height = (r2.headers pbh).height)
    (hnm : pid ≠ MAIN_CHAIN_ID)
    (hbelow : hgt < (r2.relay.best_height + CONFIRMATIONS) % U32LIM) :
    forkDispatch r2 hc pbh pid hgt nc =
      .ok { r2 with
        headers := updMap r2.headers hc ⟨hgt, pid⟩,
        chainIdx := updMap r2.chainIdx hgt ⟨hc⟩,
        forks := updMap r2.forks nc
          { (r2.forks nc) with height := hgt, descendants := (r2.forks nc).descendants ++ [hc] } } := by
  unfold forkDispatch
  dsimp only
  rw [if_neg (not_not_intro hext), if_neg hnm, if_neg (by omega)]

/-- When all checks of `submit_block_header` pass, the function reduces to
`forkDispatch` on the repository with the epoch samples updated according
to the period position of the height. -/
theorem submit_reduces (r : Repo) (header bh pbh : List Nat) (pid hgt nc : Nat)
    (hlen : header.length = 80)
    (hctr : (r.relay.chain_counter + 1) % U32LIM = nc)
    (hh : hash256 header = bh)
    (hdup : (r.headers bh).chain_id = 0)
    (hprev : 0 < (r.headers pbh).height ∧ (r.headers pbh).height = wsub1 hgt)
    (hcid : (r.headers pbh).chain_id = pid)
    (hpow : fromLittleEndian bh ≤ extract_target_at header 0) :
    (hgt % DIFFICULTY_ADJUSTMENT_INTERVAL ≠ 0 → hgt % DIFFICULTY_ADJUSTMENT_INTERVAL ≠ 2015 →
      submitBlockHeader r header bh pbh pid hgt nc = forkDispatch r bh pbh pid hgt nc) ∧
    (hgt % DIFFICULTY_ADJUSTMENT_INTERVAL = 2015 →
      submitBlockHeader r header bh pbh pid hgt nc =
        forkDispatch { r with relay := { r.relay with
          epoch_end_target := extract_target_at header 0,
          epoch_end_time := extract_timestamp header } } bh pbh pid hgt nc) ∧
    (hgt % DIFFICULTY_ADJUSTMENT_INTERVAL = 0 →
      is_correct_difficulty_target r.relay.epoch_start_target r.relay.epoch_start_time
        r.relay.epoch_end_target r.relay.epoch_end_time (extract_target_at header 0) = .ok true →
      submitBlockHeader r header bh pbh pid hgt nc =
        forkDispatch { r with relay := { r.relay with
          epoch_start_target := extract_target_at header 0,
          epoch_start_time := extract_timestamp header,
          epoch_end_target := 0, epoch_end_time := 0 } } bh pbh pid hgt nc) := by
  refine ⟨fun h1 h2 => ?_, fun h1 => ?_, fun h1 hic => ?_⟩ <;>
    (unfold submitBlockHeader
     dsimp only
     rw [if_neg (show ¬header.length ≠ 80 from not_not_intro hlen),
       if_neg (show ¬(r.relay.chain_counter + 1) % U32LIM ≠ nc from not_not_intro hctr),
       hh,
       if_neg (show ¬bh ≠ bh from not_not_intro rfl),
       if_neg (show ¬(r.headers bh).chain_id ≠ 0 from not_not_intro hdup),
       if_neg (not_not_intro hprev),
       if_neg (show ¬(r.headers pbh).chain_id ≠ pid from not_not_intro hcid),
       if_neg (not_not_intro hpow)])
  · rw [if_neg (show ¬is_period_start hgt = true from by simp [is_period_start, h1]),
      if_neg (show ¬is_period_end hgt = true from by simp [is_period_end, h2])]
  · rw [if_neg (show ¬is_period_start hgt = true from by
        simp only [is_period_start, beq_iff_eq]; omega),
      if_pos (show is_period_end hgt = true from by simp [is_period_end, h1])]
  · rw [if_pos (show is_period_start hgt = true from by simp [is_period_start, h1]), hic]
    rfl

/-- C10 (counterexample): a successful submission that quietly extends
non-main fork 2 at the period-end height 2015 (below `best_height + 6`)
leaves `best_block`, `best_height` and `chain_counter` unchanged but also
writes the epoch-end sample fields of `RelayState`
(`epoch_end_time` goes from 0 to the header's timestamp 1231006505),
contradicting the claim that only the fork record, the header record and
the height index are written. -/
theorem fork_extension_writes_epoch :
    (submitBlockHeader peRepo genesisHeader (hash256 genesisHeader) pbh1 2 2015 1).map
      (fun r => (r.relay.epoch_end_time, r.relay.best_block, r.relay.best_height,
        r.relay.chain_counter)) = .ok (1231006505, bbOld, 2013, 0) ∧
    peRepo.relay.epoch_end_time = 0 ∧ (1231006505 : Nat) ≠ 0 := by decide

/-- C10 (amended): a successful submission that extends an existing
non-main fork below the reorg threshold leaves `best_block`,
`best_height`, `chain_counter` and the event list unchanged; the writes
are the header record at the new hash, the height index at the new
height, the fork account at seed `next_counter` (height and appended
descendant), and — only at period boundaries — the epoch sample fields;
away from the boundaries the whole `RelayState` is untouched. -/
theorem fork_extension_frame (r : Repo) (header bh pbh : List Nat) (pid hgt nc : Nat)
    (hlen : header.length = 80)
    (hctr : (r.relay.chain_counter + 1) % U32LIM = nc)
    (hh : hash256 header = bh)
    (hdup : (r.headers bh).chain_id = 0)
    (hprev : 0 < (r.headers pbh).height ∧ (r.headers pbh).height = wsub1 hgt)
    (hcid : (r.headers pbh).chain_id = pid)
    (hpow : fromLittleEndian bh ≤ extract_target_at header 0)
    (hdiff : hgt % DIFFICULTY_ADJUSTMENT_INTERVAL = 0 →
      is_correct_difficulty_target r.relay.epoch_start_target r.relay.epoch_start_time
        r.relay.epoch_end_target r.relay.epoch_end_time (extract_target_at header 0) = .ok true)
    (hext : (r.forks pid).height = (r.headers pbh).height)
    (hnm : pid ≠ MAIN_CHAIN_ID)
    (hbelow : hgt < (r.relay.best_height + CONFIRMATIONS) % U32LIM) :
    ∃ r2, submitBlockHeader r header bh pbh pid hgt nc = .ok r2 ∧
      r2.relay.best_block = r.relay.best_block ∧
      r2.relay.best_height = r.relay.best_height ∧
      r2.relay.chain_counter = r.relay.chain_counter ∧
      r2.events = r.events ∧
      r2.headers bh = ⟨hgt, pid⟩ ∧
      (∀ x, x ≠ bh → r2.headers x = r.headers x) ∧
      r2.forks nc =
        { (r.forks nc) with height := hgt, descendants := (r.forks nc).descendants ++ [bh] } ∧
      (∀ i, i ≠ nc → r2.forks i = r.forks i) ∧
      r2.chainIdx hgt = ⟨bh⟩ ∧
      (∀ t, t ≠ hgt → r2.chainIdx t = r.chainIdx t) ∧
      (hgt % DIFFICULTY_ADJUSTMENT_INTERVAL ≠ 0 → hgt % DIFFICULTY_ADJUSTMENT_INTERVAL ≠ 2015 →
        r2.relay = r.relay) := by
  obtain ⟨hred0, hred2015, hredps⟩ :=
    submit_reduces r header bh pbh pid hgt nc hlen hctr hh hdup hprev hcid hpow
  by_cases hps : hgt % DIFFICULTY_ADJUSTMENT_INTERVAL = 0
  · rw [hredps hps (hdiff hps)]
    refine ⟨_, forkDispatch_quiet hext hnm hbelow, rfl, rfl, rfl, rfl, by simp [updMap], ?_,
      by simp [updMap], ?_, by simp [updMap], ?_, fun hc1 _ => absurd hps hc1⟩
    · intro x hx
      simp [updMap, hx]
    · intro i hi
      simp [updMap, hi]
    · intro t ht
      simp [updMap, ht]
  · by_cases hpe : hgt % DIFFICULTY_ADJUSTMENT_INTERVAL = 2015
    · rw [hred2015 hpe]
      refine ⟨_, forkDispatch_quiet hext hnm hbelow, rfl, rfl, rfl, rfl, by simp [updMap], ?_,
        by simp [updMap], ?_, by simp [updMap], ?_, fun _ hc2 => absurd hpe hc2⟩
      · intro x hx
        simp [updMap, hx]
      · intro i hi
        simp [updMap, hi]
      · intro t ht
        simp [updMap, ht]
    · rw [hred0 hps hpe]
      refine ⟨_, forkDispatch_quiet hext hnm hbelow, rfl, rfl, rfl, rfl, by simp [updMap], ?_,
        by simp [updMap], ?_, by simp [updMap], ?_, fun _ _ => rfl⟩
      · intro x hx
        simp [updMap, hx]
      · intro i hi
        simp [updMap, hi]
      · intro t ht
        simp [updMap, ht]

/-- Witness for `fork_extension_frame` at the concrete `extRepo` scenario
(height 300 on fork 2, best height 297). -/
theorem fork_extension_frame_witness :
    ∃ r2, submitBlockHeader extRepo genesisHeader (hash256 genesisHeader) pbh1 2 300 1 =
        .ok r2 ∧
      r2.relay.best_block = extRepo.relay.best_block ∧
      r2.relay.best_height = extRepo.relay.best_height ∧
      r2.relay.chain_counter = extRepo.relay.chain_counter ∧
      r2.events = extRepo.events ∧
      r2.headers (hash256 genesisHeader) = ⟨300, 2⟩ ∧
      (∀ x, x ≠ hash256 genesisHeader → r2.headers x = extRepo.headers x) ∧
      r2.forks 1 =
        { (extRepo.forks 1) with height := 300, descendants := (extRepo.forks 1).descendants ++ [hash256 genesisHeader] } ∧
      (∀ i, i ≠ 1 → r2.forks i = extRepo.forks i) ∧
      r2.chainIdx 300 = ⟨hash256 genesisHeader⟩ ∧
      (∀ t, t ≠ 300 → r2.chainIdx t = extRepo.chainIdx t) ∧
      (300 % DIFFICULTY_ADJUSTMENT_INTERVAL ≠ 0 → 300 % DIFFICULTY_ADJUSTMENT_INTERVAL ≠ 2015 →
        r2.relay = extRepo.relay) :=
  fork_extension_frame extRepo genesisHeader (hash256 genesisHeader) pbh1 2 300 1
    (by decide) (by decide) rfl (by decide) (by decide) (by decide) (by decide)
    (fun h => absurd h (by decide)) (by decide) (by decide) (by decide)

theorem except_map_error {x : Except TxError Repo} {e : TxError}
    (h : x.map (fun _ => (0 : Nat)) = .error e) : x = .error e := by
  cases x <;> simp_all [Except.map]

/-- C6: the batch entry point applies each header through the
single-header pipeline in submission order — the cons equation is exactly
"one single-header step, then the rest" — and the batch is atomic: if the
batch on some prefix succeeds and the next header's step fails, the whole
batch call returns that error, so no repository value is produced and the
caller keeps the pre-batch repository with no header committed. -/
theorem submit_batch_pipeline :
    (∀ (r : Repo) (h : List Nat) (t : List (List Nat)),
      submitBlockHeaderBatch r (h :: t) =
        match submitBatchStep r h with
        | .error e => .error e
        | .ok r2 => submitBlockHeaderBatch r2 t) ∧
    (∀ (pre : List (List Nat)) (r r1 : Repo) (h : List Nat) (rest : List (List Nat))
        (e : TxError),
      submitBlockHeaderBatch r pre = .ok r1 →
      submitBatchStep r1 h = .error e →
      submitBlockHeaderBatch r (pre ++ h :: rest) = .error e) := by
  constructor
  · intro r h t
    rfl
  · intro pre
    induction pre with
    | nil =>
      intro r r1 h rest e h1 h2
      unfold submitBlockHeaderBatch at h1
      injection h1 with h1
      subst h1
      show submitBlockHeaderBatch r (h :: rest) = .error e
      unfold submitBlockHeaderBatch
      rw [h2]
    | cons p ps ih =>
      intro r r1 h rest e h1 h2
      rw [List.cons_append]
      unfold submitBlockHeaderBatch at h1 ⊢
      cases hstep : submitBatchStep r p with
      | error e2 =>
        simp only [hstep] at h1
        exact absurd h1 (by simp)
      | ok rmid =>
        simp only [hstep] at h1 ⊢
        exact ih rmid r1 h rest e h1 h2

/-- Witness for `submit_batch_pipeline`: on an empty repository the batch
`[genesisHeader]` fails at its first header (no parent on record) with
`PreviousBlockNotFound`. -/
theorem submit_batch_pipeline_witness :
    submitBlockHeaderBatch emptyRepo [genesisHeader] =
      .error (.relay .PreviousBlockNotFound) :=
  submit_batch_pipeline.2 [] emptyRepo emptyRepo genesisHeader []
    (.relay .PreviousBlockNotFound) rfl (except_map_error (by decide))

/-- C7: `verifyTx` succeeds only when `confirmations ≤ bestHeight − height
+ 1`; with one more confirmation demanded than available it fails with
`InsufficientConfirmations`; and whenever the recomputed merkle root
differs from the header's it fails with `IncorrectMerkleProof`. -/
theorem verify_tx_confirmations :
    (∀ (r : Repo) (hgt idx : Nat) (txid hd : List Nat) (proof : List (List Nat))
        (conf : Nat) (ins b : Bool),
      verifyTx r hgt idx txid hd proof conf ins = .ok b →
      conf ≤ r.relay.best_height - hgt + 1) ∧
    (∀ (r : Repo) (hgt idx : Nat) (txid hd : List Nat) (proof : List (List Nat)) (ins : Bool),
      hd.length = 80 →
      (r.chainIdx hgt).block_hash = hash256 hd →
      computeMerkle txid idx proof = extractMerkleRoot hd →
      verifyTx r hgt idx txid hd proof (r.relay.best_height - hgt + 2) ins =
        .error (.relay .InsufficientConfirmations)) ∧
    (∀ (r : Repo) (hgt idx : Nat) (txid hd : List Nat) (proof : List (List Nat))
        (conf : Nat) (ins : Bool),
      hd.length = 80 →
      (r.chainIdx hgt).block_hash = hash256 hd →
      computeMerkle txid idx proof ≠ extractMerkleRoot hd →
      verifyTx r hgt idx txid hd proof conf ins = .error (.relay .IncorrectMerkleProof)) := by
  refine ⟨?_, ?_, ?_⟩
  · intro r hgt idx txid hd proof conf ins b hok
    unfold verifyTx at hok
    repeat' split at hok
    all_goals first
      | assumption
      | exact absurd hok (by simp)
  · intro r hgt idx txid hd proof ins hlen hidx hmr
    unfold verifyTx
    rw [if_neg (show ¬hd.length ≠ 80 from not_not_intro hlen),
      if_neg (show ¬(r.chainIdx hgt).block_hash ≠ hash256 hd from not_not_intro hidx),
      if_neg (not_not_intro hmr),
      if_neg (by omega)]
  · intro r hgt idx txid hd proof conf ins hlen hidx hmr
    unfold verifyTx
    rw [if_neg (show ¬hd.length ≠ 80 from not_not_intro hlen),
      if_neg (show ¬(r.chainIdx hgt).block_hash ≠ hash256 hd from not_not_intro hidx),
      if_pos hmr]

/-- Witness for `verify_tx_confirmations` at the concrete `vRepo` scenario
(genesis header canonical at height 100, best height 105, its merkle root
as the only txid with the empty sibling list). -/
theorem verify_tx_confirmations_witness :
    6 ≤ vRepo.relay.best_height - 100 + 1 ∧
    verifyTx vRepo 100 0 genesisMerkleRoot genesisHeader [] 7 false =
      .error (.relay .InsufficientConfirmations) ∧
    verifyTx vRepo 100 0 zeros32 genesisHeader [] 1 false =
      .error (.relay .IncorrectMerkleProof) :=
  ⟨verify_tx_confirmations.1 vRepo 100 0 genesisMerkleRoot genesisHeader [] 6 false true
      (by decide),
   verify_tx_confirmations.2.1 vRepo 100 0 genesisMerkleRoot genesisHeader [] false
      (by decide) (by decide) (by decide),
   verify_tx_confirmations.2.2 vRepo 100 0 zeros32 genesisHeader [] 1 false
      (by decide) (by decide) (by decide)⟩

end BtcRelay
